import Mathlib

/-!
Verification of the rigid-body actor model of the NovodeX physics interface
(`NxActorDesc.h`, `NxActor.h`).  Scalars (`NxReal`, C `float`) are embedded as
rationals; comparisons against literal constants in the source are exact, so
they translate directly.  Definitions translated from `NxActorDesc.h` follow
the inline code there; the dynamics behind the pure-virtual interface of
`NxActor.h` is modelled from the specification (each such definition says so
in its doc comment).
-/

/-- `NxVec3`: a 3-vector of reals (embedded as rationals). -/
structure NxVec3 where
  x : ℚ
  y : ℚ
  z : ℚ
deriving DecidableEq, Repr

namespace NxVec3

/-- The zero vector (`NxVec3::zero()`). -/
def zero : NxVec3 := ⟨0, 0, 0⟩

/-- `NxVec3::isZero()`: all components are exactly zero. -/
def isZero (v : NxVec3) : Bool := v.x = 0 ∧ v.y = 0 ∧ v.z = 0

instance : Add NxVec3 := ⟨fun a b => ⟨a.x + b.x, a.y + b.y, a.z + b.z⟩⟩

instance : SMul ℚ NxVec3 := ⟨fun c v => ⟨c * v.x, c * v.y, c * v.z⟩⟩

theorem add_def (a b : NxVec3) : a + b = ⟨a.x + b.x, a.y + b.y, a.z + b.z⟩ := rfl

theorem smul_def (c : ℚ) (v : NxVec3) : c • v = ⟨c * v.x, c * v.y, c * v.z⟩ := rfl

end NxVec3

/-- `NxMat33`: a 3×3 matrix, stored as three row vectors. -/
structure NxMat33 where
  r0 : NxVec3
  r1 : NxVec3
  r2 : NxVec3
deriving DecidableEq, Repr

/-- The identity rotation. -/
def NxMat33.identity : NxMat33 := ⟨⟨1, 0, 0⟩, ⟨0, 1, 0⟩, ⟨0, 0, 1⟩⟩

/-- `NxMat34`: a rigid transform (rotation part `M`, translation `t`).
The original stores float entries which may be NaN or infinite; rationals
cannot represent those, so finiteness of the entries is carried as the
explicit field `finite`, which `isFinite` reports. -/
structure NxMat34 where
  M : NxMat33
  t : NxVec3
  finite : Bool
deriving DecidableEq, Repr

/-- `NxMat34::isFinite()`. -/
def NxMat34.isFinite (m : NxMat34) : Bool := m.finite

/-- `NxMat34::id()`: the identity transform (its entries are finite). -/
def NxMat34.id : NxMat34 := ⟨NxMat33.identity, NxVec3.zero, true⟩

/-- Modelled from the spec: `NxBodyDesc` (its header is not among the
sources; only the fields read by `NxActorDesc.h` and its validity check are
needed).  `mass` and `massSpaceInertia` are the explicit mass properties,
`linearDamping`/`angularDamping` the damping coefficients. -/
structure NxBodyDesc where
  mass : ℚ
  massSpaceInertia : NxVec3
  linearDamping : ℚ
  angularDamping : ℚ
deriving DecidableEq, Repr

/-- Modelled from the spec: `NxBodyDesc::isValid()` (not among the sources).
The spec requires a non-negative mass (zero only when mass is derived from
density and shapes) and non-negative damping coefficients. -/
def NxBodyDesc.isValid (b : NxBodyDesc) : Bool :=
  0 ≤ b.mass ∧ 0 ≤ b.linearDamping ∧ 0 ≤ b.angularDamping

/-- Modelled from the spec: `NxShapeDesc` (not among the sources).  Shape
geometry is an external collaborator, so only the outcome of its own
validity check `NxShapeDesc::isValid()` is kept, as the field `valid`. -/
structure NxShapeDesc where
  valid : Bool
deriving DecidableEq, Repr

/-- `NxShapeDesc::isValid()`, reading the abstracted outcome. -/
def NxShapeDesc.isValid (s : NxShapeDesc) : Bool := s.valid

/-- `NxActorDescBase` (`NxActorDesc.h`): pose, optional body descriptor
(null for static actors, here `Option`), density, flags and group.
`userData`/`name` are opaque pointers never read by the validation code and
are omitted. -/
structure NxActorDescBase where
  globalPose : NxMat34
  body : Option NxBodyDesc
  density : ℚ
  flags : ℕ
  group : ℕ
deriving DecidableEq, Repr

namespace NxActorDescBase

/-- `NxActorDescBase::setToDefault()`: null body, zero density, identity
pose, zero flags and group. -/
def setToDefault : NxActorDescBase :=
  { globalPose := NxMat34.id
    body := none
    density := 0
    flags := 0
    group := 0 }

/-- `NxActorDescBase::isValid()`: rejects a negative density, a present but
invalid body descriptor, and a non-finite global pose. -/
def isValid (d : NxActorDescBase) : Bool :=
  if d.density < 0 then false
  else if (match d.body with
           | some b => ¬ b.isValid
           | none => false : Bool) then false
  else if ¬ d.globalPose.isFinite then false
  else true

/-- `NxActorDescBase::isValidInternal(bool haveShape)`: the mass-specification
check.  In the source, `haveTensor` is computed as
`body && !(body->massSpaceInertia.isZero() > 0.0f)`; `isZero()` returns a
`bool`, which compared against `0.0f` is `true` exactly when the vector is
zero, so `haveTensor` holds when a body is present with a non-zero inertia
vector. -/
def isValidInternal (d : NxActorDescBase) (haveShape : Bool) : Bool :=
  let haveDensity : Bool := d.density ≠ 0
  let haveMass : Bool :=
    match d.body with
    | some b => b.mass ≠ 0
    | none => false
  let haveTensor : Bool :=
    match d.body with
    | some b => ¬ b.massSpaceInertia.isZero
    | none => false
  if haveShape ∧ d.body = none then true
  else if haveShape ∧ haveDensity ∧ ¬ haveMass ∧ ¬ haveTensor then true
  else if haveShape ∧ ¬ haveDensity ∧ haveMass ∧ ¬ haveTensor then true
  else if ¬ haveDensity ∧ haveMass ∧ haveTensor then true
  else false

end NxActorDescBase

/-- `NxActorDesc`: the base descriptor together with the list of shape
descriptors composing the actor. -/
structure NxActorDesc extends NxActorDescBase where
  shapes : List NxShapeDesc
deriving DecidableEq, Repr

namespace NxActorDesc

/-- `NxActorDesc::setToDefault()`: base defaults and an empty shape list. -/
def setToDefault : NxActorDesc :=
  { NxActorDescBase.setToDefault with shapes := [] }

/-- `NxActorDesc::isValid()`: the base check, then validity of every shape
descriptor, then the mass-specification check with
`haveShape = (shapes.size() > 0)`. -/
def isValid (d : NxActorDesc) : Bool :=
  if ¬ d.toNxActorDescBase.isValid then false
  else if d.shapes.any (fun s => ¬ s.isValid) then false
  else if ¬ d.toNxActorDescBase.isValidInternal (decide (0 < d.shapes.length)) then false
  else true

end NxActorDesc

/-! ## The rigid-body actor model

`NxActor.h` is a pure-virtual interface: the dynamics behind it is not among
the sources, so it is modelled from the specification, definition by
definition. -/

/-- Body kind: static, dynamic, or kinematically driven dynamic. -/
inductive BodyKind where
  | staticBody
  | dynamicBody
  | kinematicBody
deriving DecidableEq, Repr

/-- Sleep state of a body. -/
inductive SleepState where
  | awake
  | sleeping
deriving DecidableEq, Repr

/-- `NxForceMode`: how an applied vector is interpreted. -/
inductive NxForceMode where
  | NX_FORCE
  | NX_IMPULSE
  | NX_VELOCITY_CHANGE
  | NX_ACCELERATION
deriving DecidableEq, Repr

/-- Error taxonomy: degenerate-geometry failure of the mass computation. -/
inductive NxErrorCode where
  | degenerateGeometry
deriving DecidableEq, Repr

/-- Modelled from the spec: the per-shape mass contribution consumed by
`computeFromShapes` (shape geometry itself is an external collaborator):
volume, centroid, and the shape's contribution to the diagonalized second
moment per unit density. -/
structure ShapeMassProps where
  volume : ℚ
  centroid : NxVec3
  inertiaDiag : NxVec3
deriving DecidableEq, Repr

/-- Modelled from the spec: the rigid-body actor (`NxActor`) state — pose,
kind, velocities, mass properties, force accumulator, sleep bookkeeping,
the kinematic motion target, and the mass contributions of the attached
shapes.  Damping coefficients are omitted: no claim verified here concerns
damped motion, and the default linear damping is zero. -/
structure Body where
  kind : BodyKind
  pose : NxMat34
  linearVelocity : NxVec3
  angularVelocity : NxVec3
  mass : ℚ
  cmassLocalPosition : NxVec3
  massSpaceInertia : NxVec3
  forceAccum : NxVec3
  sleepState : SleepState
  wakeCounter : ℚ
  sleepLinearVelocity : ℚ
  sleepAngularVelocity : ℚ
  pendingMotion : Option NxMat34
  shapeMasses : List ShapeMassProps
deriving DecidableEq, Repr

/-- Squared Euclidean magnitude of a vector. -/
def NxVec3.magnitudeSq (v : NxVec3) : ℚ := v.x * v.x + v.y * v.y + v.z * v.z

namespace Body

/-- Modelled from the spec: both sleep thresholds hold — linear speed below
the linear threshold and angular speed below the angular threshold.  Speeds
are compared squared (`|v| < t ↔ |v|² < t²` for the non-negative stored
thresholds), avoiding square roots. -/
def belowSleepThresholds (b : Body) : Bool :=
  b.linearVelocity.magnitudeSq < b.sleepLinearVelocity * b.sleepLinearVelocity ∧
  b.angularVelocity.magnitudeSq < b.sleepAngularVelocity * b.sleepAngularVelocity

/-- Modelled from the spec: `NxActor::addForce(v, mode)` (pure virtual in the
source).  `Force` accumulates `v` for the next integration; `Acceleration`
accumulates `mass·v`; `Impulse` adds `v/mass` to the velocity immediately;
`VelocityChange` adds `v` immediately.  A non-zero application wakes a
sleeping body. -/
def addForce (b : Body) (v : NxVec3) (mode : NxForceMode) : Body :=
  let st := if v.isZero then b.sleepState else SleepState.awake
  match mode with
  | NxForceMode.NX_FORCE =>
      { b with forceAccum := b.forceAccum + v, sleepState := st }
  | NxForceMode.NX_ACCELERATION =>
      { b with forceAccum := b.forceAccum + b.mass • v, sleepState := st }
  | NxForceMode.NX_IMPULSE =>
      { b with linearVelocity := b.linearVelocity + b.mass⁻¹ • v, sleepState := st }
  | NxForceMode.NX_VELOCITY_CHANGE =>
      { b with linearVelocity := b.linearVelocity + v, sleepState := st }

/-- Linear momentum: `mass · linearVelocity` (`NxActor::getLinearMomentum`). -/
def linearMomentum (b : Body) : NxVec3 := b.mass • b.linearVelocity

/-- Modelled from the spec: force integration of a dynamic body over one
timestep — velocity gains `dt/mass · forceAccum`, the position advances by
`dt ·` the new velocity, and the accumulator is cleared unconditionally. -/
def integrateDynamic (dt : ℚ) (b : Body) : Body :=
  let v := b.linearVelocity + (dt * b.mass⁻¹) • b.forceAccum
  { b with
    linearVelocity := v
    pose := { b.pose with t := b.pose.t + dt • v }
    forceAccum := NxVec3.zero }

/-- Modelled from the spec: consumption of the kinematic motion target at
integration time.  The implied velocity `(target − pose)/dt` carries the
body to the target within the step, after which the pose sits at the
target, the velocity is reset to zero, and the target is cleared; with no
target queued the body does not move and generates no velocity. -/
def kinematicStep (b : Body) : Body :=
  match b.pendingMotion with
  | some target =>
      { b with
        pose := target
        linearVelocity := NxVec3.zero
        angularVelocity := NxVec3.zero
        pendingMotion := none }
  | none => b

/-- Modelled from the spec: per-step integration of one body according to
its kind — static bodies never integrate, kinematic bodies consume their
motion target, dynamic bodies integrate under the accumulated forces. -/
def integrate (dt : ℚ) (b : Body) : Body :=
  match b.kind with
  | BodyKind.staticBody => b
  | BodyKind.kinematicBody => b.kinematicStep
  | BodyKind.dynamicBody => b.integrateDynamic dt

/-- Modelled from the spec: per-step wake-counter bookkeeping — the counter
decrements by `dt` while the body stays below both sleep thresholds and is
reset to the configured maximum whenever a threshold is exceeded. -/
def updateWakeCounter (dt maxCounter : ℚ) (b : Body) : Body :=
  if b.belowSleepThresholds then { b with wakeCounter := b.wakeCounter - dt }
  else { b with wakeCounter := maxCounter }

/-- Modelled from the spec: a body is eligible to sleep when it is below
both thresholds and its wake counter has run out. -/
def sleepEligible (b : Body) : Bool :=
  b.belowSleepThresholds ∧ b.wakeCounter ≤ 0

/-- Marks an awake body sleeping (the committed Awake → Sleeping transition);
nothing else of the body changes. -/
def commitSleep (b : Body) : Body :=
  match b.sleepState with
  | SleepState.awake => { b with sleepState := SleepState.sleeping }
  | SleepState.sleeping => b

/-- `NxActor::isSleeping()`. -/
def isSleeping (b : Body) : Bool := b.sleepState = SleepState.sleeping

/-- Modelled from the spec: `NxActor::putToSleep()` — an unconditional,
immediate transition to Sleeping with both velocities zeroed and the wake
counter exhausted, bypassing the threshold check. -/
def putToSleep (b : Body) : Body :=
  { b with
    sleepState := SleepState.sleeping
    linearVelocity := NxVec3.zero
    angularVelocity := NxVec3.zero
    wakeCounter := 0 }

/-- Modelled from the spec: `NxActor::wakeUp(wakeCounterValue)` — marks the
body awake and resets the wake counter to the given value. -/
def wakeUp (wakeCounterValue : ℚ) (b : Body) : Body :=
  { b with sleepState := SleepState.awake, wakeCounter := wakeCounterValue }

/-- The integration phase as applied to one body: bodies still awake
integrate, sleeping bodies are untouched. -/
def integrateIfAwake (dt : ℚ) (b : Body) : Body :=
  match b.sleepState with
  | SleepState.awake => b.integrate dt
  | SleepState.sleeping => b

end Body

/-- Modelled from the spec: one simulation step of a connected group.  Wake
counters are updated from the current velocities; the group fixed point is
evaluated, and when every body of the group is eligible the Awake → Sleeping
transitions commit at the step boundary, before any integration of this
step (sleep transitions are never applied mid-integration); finally every
body still awake integrates.  A body Sleeping when the step completes was
therefore untouched by the integration phase. -/
def stepGroup (dt maxCounter : ℚ) (g : List Body) : List Body :=
  let counted := g.map (Body.updateWakeCounter dt maxCounter)
  let committed :=
    if counted.all Body.sleepEligible then counted.map Body.commitSleep else counted
  committed.map (Body.integrateIfAwake dt)

/-! ## Kinematic move commands and mass-properties computation -/

/-- A queued kinematic move call: `moveGlobalPose`, `moveGlobalPosition` or
`moveGlobalOrientation` with its argument. -/
inductive MoveCmd where
  | movePose (target : NxMat34)
  | movePosition (target : NxVec3)
  | moveOrientation (target : NxMat33)
deriving DecidableEq, Repr

namespace Body

/-- Modelled from the spec: the destination pose a move call denotes for a
body — `moveGlobalPose` gives the full target, `moveGlobalPosition` keeps
the body's current orientation, `moveGlobalOrientation` keeps the body's
current position. -/
def moveTarget (b : Body) : MoveCmd → NxMat34
  | MoveCmd.movePose t => t
  | MoveCmd.movePosition p => { b.pose with t := p }
  | MoveCmd.moveOrientation r => { b.pose with M := r }

/-- Modelled from the spec: a `moveGlobal*` call stores its destination into
`pendingMotion`, fully overwriting any previously queued target; the body
itself does not move until the next step consumes the target. -/
def moveGlobal (b : Body) (c : MoveCmd) : Body :=
  { b with pendingMotion := some (b.moveTarget c) }

/-- A sequence of `moveGlobal*` calls made within the same step, applied in
order. -/
def moveGlobalSeq (b : Body) (cs : List MoveCmd) : Body :=
  cs.foldl Body.moveGlobal b

end Body

/-- Total volume accumulated over the shapes. -/
def totalVolume (shapes : List ShapeMassProps) : ℚ :=
  (shapes.map ShapeMassProps.volume).sum

/-- Accumulated first moment: sum of each shape's volume-weighted centroid. -/
def momentSum (shapes : List ShapeMassProps) : NxVec3 :=
  (shapes.map (fun s => s.volume • s.centroid)).foldr (fun a b => a + b) NxVec3.zero

/-- Accumulated second moment: sum of the shapes' diagonalized per-unit-density
inertia contributions. -/
def inertiaSum (shapes : List ShapeMassProps) : NxVec3 :=
  (shapes.map ShapeMassProps.inertiaDiag).foldr (fun a b => a + b) NxVec3.zero

/-- Modelled from the spec: the mass `computeFromShapes` derives — the given
total mass when a density was not supplied, else `density ·` total volume
(exactly one of the two is non-zero by caller precondition). -/
def derivedMass (shapes : List ShapeMassProps) (density totalMass : ℚ) : ℚ :=
  if density ≠ 0 then density * totalVolume shapes else totalMass

/-- Modelled from the spec: the principal (diagonalized) inertia values
`computeFromShapes` derives — the accumulated second moment scaled by the
effective density `mass / volume`. -/
def derivedInertia (shapes : List ShapeMassProps) (density totalMass : ℚ) : NxVec3 :=
  (derivedMass shapes density totalMass / totalVolume shapes) • inertiaSum shapes

/-- Modelled from the spec: `computeFromShapes(shapes, density, totalMass)`
(behind `NxActor::updateMassFromShapes`, pure virtual in the source).
Accumulates volume and moments over the shapes and fails with
`DegenerateGeometry` when the total volume is zero or some principal
inertia value would be non-positive; on success it returns the derived
mass, center of mass, and principal inertia values. -/
def computeFromShapes (shapes : List ShapeMassProps) (density totalMass : ℚ) :
    Except NxErrorCode (ℚ × NxVec3 × NxVec3) :=
  let vol := totalVolume shapes
  if vol = 0 then Except.error NxErrorCode.degenerateGeometry
  else
    let inertia := derivedInertia shapes density totalMass
    if inertia.x ≤ 0 ∨ inertia.y ≤ 0 ∨ inertia.z ≤ 0 then
      Except.error NxErrorCode.degenerateGeometry
    else
      Except.ok (derivedMass shapes density totalMass, vol⁻¹ • momentSum shapes, inertia)

/-- Modelled from the spec: `NxActor::updateMassFromShapes(density, totalMass)`
— recomputes the body's mass properties from its shapes; on a
degenerate-geometry failure the operation aborts and the body is left
entirely unchanged. -/
def Body.updateMassFromShapes (density totalMass : ℚ) (b : Body) : Body :=
  match computeFromShapes b.shapeMasses density totalMass with
  | Except.error _ => b
  | Except.ok (m, com, inertia) =>
      { b with mass := m, cmassLocalPosition := com, massSpaceInertia := inertia }

/-! ## Descriptor validation: helper lemmas -/

/-- Characterization of the base validity check `NxActorDescBase::isValid()`. -/
lemma base_isValid_iff (d : NxActorDescBase) :
    d.isValid = true ↔
      (0 ≤ d.density ∧ d.globalPose.isFinite = true ∧
        ∀ b, d.body = some b → b.isValid = true) := by
  unfold NxActorDescBase.isValid
  rcases hb : d.body with _ | b
  · split_ifs <;> simp_all
  · split_ifs <;> simp_all

/-- `NxActorDesc::isValid()` decomposes into the base check, per-shape
validity, and the mass-specification check. -/
lemma actorDesc_isValid_decomp (d : NxActorDesc) :
    d.isValid = true ↔
      (d.toNxActorDescBase.isValid = true ∧
        (∀ s ∈ d.shapes, s.isValid = true) ∧
        d.toNxActorDescBase.isValidInternal (decide (0 < d.shapes.length)) = true) := by
  unfold NxActorDesc.isValid
  split_ifs with h1 h2 h3 <;> simp_all [List.any_eq_false]

/-- The mass-specification check in the presence of a body descriptor:
exactly the three accepted combinations of the source. -/
lemma isValidInternal_some_iff (d : NxActorDescBase) (bd : NxBodyDesc)
    (hbody : d.body = some bd) (hs : Bool) :
    d.isValidInternal hs = true ↔
      ((hs = true ∧ d.density ≠ 0 ∧ bd.mass = 0 ∧ bd.massSpaceInertia.isZero = true) ∨
       (hs = true ∧ d.density = 0 ∧ bd.mass ≠ 0 ∧ bd.massSpaceInertia.isZero = true) ∨
       (d.density = 0 ∧ bd.mass ≠ 0 ∧ bd.massSpaceInertia.isZero = false)) := by
  unfold NxActorDescBase.isValidInternal
  rw [hbody]
  by_cases h1 : d.density = 0 <;> by_cases h2 : bd.mass = 0 <;>
    cases h3 : bd.massSpaceInertia.isZero <;> cases hs <;>
      simp [h1, h2, h3]

/-! ## Claim theorems: descriptor validation -/

/-- C1: for every actor descriptor carrying a body descriptor (itself valid,
with a finite pose and valid shapes), `NxActorDesc::isValid()` accepts
exactly the three mass specifications — (a) explicit mass > 0 with non-zero
mass-space inertia and zero density, (b) density > 0 with at least one
shape, zero mass and zero inertia, (c) explicit mass > 0 with at least one
shape, zero density and zero inertia — and rejects every other combination
of density, mass, inertia and shape-presence. -/
theorem actorDesc_isValid_mass_specifications (d : NxActorDesc) (bd : NxBodyDesc)
    (hbody : d.body = some bd)
    (hfin : d.globalPose.isFinite = true)
    (hbd : bd.isValid = true)
    (hshapes : ∀ s ∈ d.shapes, s.isValid = true) :
    d.isValid = true ↔
      ((0 < bd.mass ∧ bd.massSpaceInertia.isZero = false ∧ d.density = 0) ∨
       (0 < d.density ∧ 0 < d.shapes.length ∧ bd.mass = 0 ∧
         bd.massSpaceInertia.isZero = true) ∨
       (0 < bd.mass ∧ 0 < d.shapes.length ∧ d.density = 0 ∧
         bd.massSpaceInertia.isZero = true)) := by
  have hmass : 0 ≤ bd.mass := by
    unfold NxBodyDesc.isValid at hbd
    simp at hbd
    exact hbd.1
  rw [actorDesc_isValid_decomp, base_isValid_iff,
    isValidInternal_some_iff d.toNxActorDescBase bd hbody]
  simp only [decide_eq_true_eq]
  constructor
  · rintro ⟨⟨hd0, -, -⟩, -, hint⟩
    rcases hint with ⟨hs, hd, hm, hi⟩ | ⟨hs, hd, hm, hi⟩ | ⟨hd, hm, hi⟩
    · exact Or.inr (Or.inl ⟨Ne.lt_of_le (Ne.symm hd) hd0, hs, hm, hi⟩)
    · exact Or.inr (Or.inr ⟨Ne.lt_of_le (Ne.symm hm) hmass, hs, hd, hi⟩)
    · exact Or.inl ⟨Ne.lt_of_le (Ne.symm hm) hmass, hi, hd⟩
  · intro h
    have hbase : 0 ≤ d.density ∧ d.globalPose.isFinite = true ∧
        ∀ b, d.body = some b → b.isValid = true := by
      refine ⟨?_, hfin, fun b hb => by rw [hbody] at hb; cases hb; exact hbd⟩
      rcases h with ⟨-, -, hd⟩ | ⟨hd, -⟩ | ⟨-, -, hd, -⟩
      · exact le_of_eq hd.symm
      · exact le_of_lt hd
      · exact le_of_eq hd.symm
    refine ⟨hbase, hshapes, ?_⟩
    rcases h with ⟨hm, hi, hd⟩ | ⟨hd, hs, hm, hi⟩ | ⟨hm, hs, hd, hi⟩
    · exact Or.inr (Or.inr ⟨hd, ne_of_gt hm, hi⟩)
    · exact Or.inl ⟨hs, ne_of_gt hd, hm, hi⟩
    · exact Or.inr (Or.inl ⟨hs, hd, ne_of_gt hm, hi⟩)

/-- A body descriptor with explicit mass 5 and non-zero inertia. -/
def bdExplicit : NxBodyDesc :=
  { mass := 5, massSpaceInertia := ⟨1, 2, 3⟩, linearDamping := 0, angularDamping := 0 }

/-- A shapeless dynamic descriptor with explicit mass properties. -/
def descExplicit : NxActorDesc :=
  { NxActorDesc.setToDefault with body := some bdExplicit }

/-- Witness for C1: the explicit-mass descriptor is accepted. -/
theorem actorDesc_isValid_mass_specifications_witness :
    descExplicit.isValid = true :=
  (actorDesc_isValid_mass_specifications descExplicit bdExplicit rfl rfl (by decide)
      (fun s hs => absurd hs (List.not_mem_nil s))).mpr
    (Or.inl ⟨by decide, by decide, rfl⟩)

/-- C2: the base validation `NxActorDescBase::isValid()` fails exactly when
the density is negative, the global pose is not finite, or a present body
descriptor is itself invalid; with non-negative density, finite pose and a
valid (or absent) body it passes. -/
theorem actorDescBase_isValid_base_checks (d : NxActorDescBase) :
    d.isValid = true ↔
      (0 ≤ d.density ∧ d.globalPose.isFinite = true ∧
        ∀ b, d.body = some b → b.isValid = true) :=
  base_isValid_iff d

/-- Witness for C2: the default base descriptor passes the base checks. -/
theorem actorDescBase_isValid_base_checks_witness :
    NxActorDescBase.setToDefault.isValid = true :=
  (actorDescBase_isValid_base_checks NxActorDescBase.setToDefault).mpr
    ⟨le_refl 0, rfl, fun _ hb => Option.noConfusion hb⟩

/-- C10: the default-constructed `NxActorDesc` (null body, zero density, no
shapes, identity pose) passes every field-level base check yet is rejected
by `isValid()`, because a shapeless static descriptor fails the
mass-specification check. -/
theorem default_actorDesc_isValid_false :
    NxActorDesc.setToDefault.toNxActorDescBase.isValid = true ∧
    NxActorDesc.setToDefault.isValid = false := by
  decide

/-! ## Helper lemmas for the step relation -/

/-- Wake-counter bookkeeping changes only the counter. -/
lemma updateWakeCounter_fields (dt m : ℚ) (b : Body) :
    (b.updateWakeCounter dt m).kind = b.kind ∧
    (b.updateWakeCounter dt m).pose = b.pose ∧
    (b.updateWakeCounter dt m).linearVelocity = b.linearVelocity ∧
    (b.updateWakeCounter dt m).angularVelocity = b.angularVelocity ∧
    (b.updateWakeCounter dt m).sleepState = b.sleepState ∧
    (b.updateWakeCounter dt m).pendingMotion = b.pendingMotion ∧
    (b.updateWakeCounter dt m).belowSleepThresholds = b.belowSleepThresholds := by
  unfold Body.updateWakeCounter
  split <;> simp [Body.belowSleepThresholds]

/-- Committing the sleep transition changes only the sleep state, and the
result is always Sleeping. -/
lemma commitSleep_fields (b : Body) :
    (b.commitSleep).kind = b.kind ∧
    (b.commitSleep).pose = b.pose ∧
    (b.commitSleep).linearVelocity = b.linearVelocity ∧
    (b.commitSleep).angularVelocity = b.angularVelocity ∧
    (b.commitSleep).pendingMotion = b.pendingMotion ∧
    (b.commitSleep).sleepState = SleepState.sleeping := by
  unfold Body.commitSleep
  cases h : b.sleepState <;> simp [h]

/-- Integration never changes the sleep state. -/
lemma integrate_sleepState (dt : ℚ) (b : Body) :
    (b.integrate dt).sleepState = b.sleepState := by
  unfold Body.integrate Body.integrateDynamic Body.kinematicStep
  cases b.kind <;> try rfl
  cases b.pendingMotion <;> rfl

/-- Per-index view of `stepGroup` when the whole group is eligible. -/
lemma stepGroup_getElem_true (dt m : ℚ) (g : List Body) (i : ℕ)
    (hall : (g.map (Body.updateWakeCounter dt m)).all Body.sleepEligible = true) :
    (stepGroup dt m g)[i]? =
      (g[i]?.map (Body.updateWakeCounter dt m)).map
        (fun b => Body.integrateIfAwake dt b.commitSleep) := by
  simp [stepGroup, hall, List.getElem?_map, Option.map_map, Function.comp]
  rfl

/-- Per-index view of `stepGroup` when some body is not eligible. -/
lemma stepGroup_getElem_false (dt m : ℚ) (g : List Body) (i : ℕ)
    (hall : (g.map (Body.updateWakeCounter dt m)).all Body.sleepEligible = false) :
    (stepGroup dt m g)[i]? =
      (g[i]?.map (Body.updateWakeCounter dt m)).map (Body.integrateIfAwake dt) := by
  simp only [stepGroup, hall]
  simp [List.getElem?_map, Option.map_map, Function.comp]

/-- A sleeping body is untouched by the integration phase. -/
lemma integrateIfAwake_of_sleeping (dt : ℚ) (b : Body)
    (h : b.sleepState = SleepState.sleeping) :
    Body.integrateIfAwake dt b = b := by
  unfold Body.integrateIfAwake
  rw [h]

/-- The integration phase never changes the sleep state. -/
lemma integrateIfAwake_sleepState (dt : ℚ) (b : Body) :
    (Body.integrateIfAwake dt b).sleepState = b.sleepState := by
  unfold Body.integrateIfAwake
  cases h : b.sleepState
  · rw [integrate_sleepState, h]
  · exact h

/-- A `moveGlobal*` call changes only the queued target. -/
lemma moveGlobal_fields (b : Body) (c : MoveCmd) :
    (b.moveGlobal c).pose = b.pose ∧
    (b.moveGlobal c).linearVelocity = b.linearVelocity ∧
    (b.moveGlobal c).angularVelocity = b.angularVelocity ∧
    (b.moveGlobal c).kind = b.kind := by
  unfold Body.moveGlobal
  exact ⟨rfl, rfl, rfl, rfl⟩

/-- Queuing any sequence of move calls leaves the pose untouched. -/
lemma moveGlobalSeq_pose (b : Body) (cs : List MoveCmd) :
    (b.moveGlobalSeq cs).pose = b.pose := by
  induction cs generalizing b with
  | nil => rfl
  | cons c cs ih =>
      unfold Body.moveGlobalSeq at *
      simp only [List.foldl_cons]
      rw [ih (b.moveGlobal c), (moveGlobal_fields b c).1]

/-- The destination of a move call depends only on the body's pose. -/
lemma moveTarget_congr (a b : Body) (c : MoveCmd) (h : a.pose = b.pose) :
    a.moveTarget c = b.moveTarget c := by
  cases c <;> simp [Body.moveTarget, h]

/-! ## Claim theorems: dynamics, sleep and kinematics -/

/-- C4: for an unconstrained dynamic body and any timestep dt > 0, Impulse
mode changes the linear momentum by exactly the applied vector — immediately
at accumulation time and still after integration, independently of dt —
while Force mode changes the integrated velocity by exactly
`force / mass · dt`. -/
theorem addForce_impulse_and_force_modes (b : Body) (v : NxVec3) (dt : ℚ)
    (hkind : b.kind = BodyKind.dynamicBody)
    (hmass : 0 < b.mass)
    (hdt : 0 < dt) :
    ((b.addForce v NxForceMode.NX_IMPULSE).linearMomentum =
        b.linearMomentum + v ∧
      (Body.integrateDynamic dt (b.addForce v NxForceMode.NX_IMPULSE)).linearMomentum =
        (Body.integrateDynamic dt b).linearMomentum + v) ∧
    (Body.integrateDynamic dt (b.addForce v NxForceMode.NX_FORCE)).linearVelocity =
      (Body.integrateDynamic dt b).linearVelocity + (b.mass⁻¹ * dt) • v := by
  have hm : b.mass ≠ 0 := ne_of_gt hmass
  unfold Body.addForce Body.integrateDynamic Body.linearMomentum
  cases hv : v.isZero <;>
    refine ⟨⟨?_, ?_⟩, ?_⟩ <;>
      simp [NxVec3.add_def, NxVec3.smul_def, NxVec3.mk.injEq] <;>
        constructor <;> (try constructor) <;> field_simp <;> ring

/-- A concrete awake dynamic body used by the witnesses. -/
def sampleBody : Body :=
  { kind := BodyKind.dynamicBody
    pose := NxMat34.id
    linearVelocity := ⟨1, 0, 0⟩
    angularVelocity := NxVec3.zero
    mass := 2
    cmassLocalPosition := NxVec3.zero
    massSpaceInertia := ⟨1, 1, 1⟩
    forceAccum := NxVec3.zero
    sleepState := SleepState.awake
    wakeCounter := 1
    sleepLinearVelocity := 0
    sleepAngularVelocity := 0
    pendingMotion := none
    shapeMasses := [] }

/-- Witness for C4: at mass 2, an impulse of (6,0,0) moves the momentum by
exactly (6,0,0). -/
theorem addForce_impulse_and_force_modes_witness :
    (sampleBody.addForce ⟨6, 0, 0⟩ NxForceMode.NX_IMPULSE).linearMomentum =
      sampleBody.linearMomentum + ⟨6, 0, 0⟩ :=
  (addForce_impulse_and_force_modes sampleBody ⟨6, 0, 0⟩ 1 rfl (by decide)
      (by decide)).1.1

/-- C7: `putToSleep()` unconditionally yields a sleeping body with both
velocities zero; a subsequent `wakeUp(counter)` yields an awake body whose
wake counter is the given value. -/
theorem putToSleep_then_wakeUp (b : Body) (counter : ℚ)
    (hkind : b.kind = BodyKind.dynamicBody) :
    b.putToSleep.isSleeping = true ∧
    b.putToSleep.linearVelocity = NxVec3.zero ∧
    b.putToSleep.angularVelocity = NxVec3.zero ∧
    (b.putToSleep.wakeUp counter).isSleeping = false ∧
    (b.putToSleep.wakeUp counter).wakeCounter = counter := by
  simp [Body.putToSleep, Body.wakeUp, Body.isSleeping]

/-- Witness for C7: the sample body, put to sleep and then woken with
counter 7. -/
theorem putToSleep_then_wakeUp_witness :
    sampleBody.putToSleep.isSleeping = true ∧
    sampleBody.putToSleep.linearVelocity = NxVec3.zero ∧
    sampleBody.putToSleep.angularVelocity = NxVec3.zero ∧
    (sampleBody.putToSleep.wakeUp 7).isSleeping = false ∧
    (sampleBody.putToSleep.wakeUp 7).wakeCounter = 7 :=
  putToSleep_then_wakeUp sampleBody 7 rfl

/-- C9: for a kinematic body, any sequence of move calls within one step
queues exactly the destination of the last call (last write wins), and the
queuing itself never moves the body. -/
theorem kinematic_move_last_write_wins (b : Body) (cs : List MoveCmd) (c : MoveCmd)
    (hkind : b.kind = BodyKind.kinematicBody) :
    (b.moveGlobalSeq (cs ++ [c])).pendingMotion = some (b.moveTarget c) ∧
    (b.moveGlobalSeq (cs ++ [c])).pose = b.pose := by
  constructor
  · unfold Body.moveGlobalSeq
    rw [List.foldl_append]
    show ((b.moveGlobalSeq cs).moveGlobal c).pendingMotion = some (b.moveTarget c)
    unfold Body.moveGlobal
    simp only
    rw [moveTarget_congr _ b c (moveGlobalSeq_pose b cs)]
  · exact moveGlobalSeq_pose b (cs ++ [c])

/-- A target pose used by the kinematic witnesses. -/
def targetPose : NxMat34 := ⟨NxMat33.identity, ⟨3, 4, 5⟩, true⟩

/-- A kinematic body with a queued motion target and thresholds that keep it
from sleeping. -/
def moverBody : Body :=
  { sampleBody with kind := BodyKind.kinematicBody, pendingMotion := some targetPose }

/-- Witness for C9: two queued moves; only the second one's destination
remains. -/
theorem kinematic_move_last_write_wins_witness :
    (moverBody.moveGlobalSeq
        ([MoveCmd.movePosition ⟨9, 9, 9⟩] ++ [MoveCmd.movePose targetPose])).pendingMotion =
      some (moverBody.moveTarget (MoveCmd.movePose targetPose)) ∧
    (moverBody.moveGlobalSeq
        ([MoveCmd.movePosition ⟨9, 9, 9⟩] ++ [MoveCmd.movePose targetPose])).pose =
      moverBody.pose :=
  kinematic_move_last_write_wins moverBody
    [MoveCmd.movePosition ⟨9, 9, 9⟩] (MoveCmd.movePose targetPose) rfl

/-- C8: a kinematic body that stays awake through a step consumes its queued
target during that step — the pose lands on the target, the velocity is
reset to zero and the queue is cleared — while with no queued target the
step leaves pose and velocity untouched. -/
theorem kinematic_consumes_pending_motion (dt maxCounter : ℚ) (b : Body)
    (hkind : b.kind = BodyKind.kinematicBody)
    (hawake : b.sleepState = SleepState.awake)
    (hstay : (b.updateWakeCounter dt maxCounter).sleepEligible = false) :
    ∃ bAfter, stepGroup dt maxCounter [b] = [bAfter] ∧
      (∀ target, b.pendingMotion = some target →
        bAfter.pose = target ∧
        bAfter.linearVelocity = NxVec3.zero ∧
        bAfter.angularVelocity = NxVec3.zero ∧
        bAfter.pendingMotion = none) ∧
      (b.pendingMotion = none →
        bAfter.pose = b.pose ∧
        bAfter.linearVelocity = b.linearVelocity ∧
        bAfter.angularVelocity = b.angularVelocity) := by
  have hu := updateWakeCounter_fields dt maxCounter b
  have hall : ([b].map (Body.updateWakeCounter dt maxCounter)).all
      Body.sleepEligible = false := by
    simp [List.all_eq_true]
    exact hstay
  refine ⟨Body.integrateIfAwake dt (b.updateWakeCounter dt maxCounter), ?_, ?_, ?_⟩
  · unfold stepGroup
    simp only [hall]
    simp
  · intro target htarget
    have hst : (b.updateWakeCounter dt maxCounter).sleepState = SleepState.awake := by
      rw [hu.2.2.2.2.1, hawake]
    unfold Body.integrateIfAwake
    rw [hst]
    unfold Body.integrate
    rw [hu.1, hkind]
    unfold Body.kinematicStep
    rw [hu.2.2.2.2.2.1, htarget]
    exact ⟨rfl, rfl, rfl, rfl⟩
  · intro hnone
    have hst : (b.updateWakeCounter dt maxCounter).sleepState = SleepState.awake := by
      rw [hu.2.2.2.2.1, hawake]
    unfold Body.integrateIfAwake
    rw [hst]
    unfold Body.integrate
    rw [hu.1, hkind]
    unfold Body.kinematicStep
    rw [hu.2.2.2.2.2.1, hnone]
    exact ⟨hu.2.1, hu.2.2.1, hu.2.2.2.1⟩

/-- Witness for C8: the kinematic mover, stepped once with dt = 1 and a
maximum counter of 4, lands exactly on its target. -/
theorem kinematic_consumes_pending_motion_witness :
    ∃ bAfter, stepGroup 1 4 [moverBody] = [bAfter] ∧
      (∀ target, moverBody.pendingMotion = some target →
        bAfter.pose = target ∧
        bAfter.linearVelocity = NxVec3.zero ∧
        bAfter.angularVelocity = NxVec3.zero ∧
        bAfter.pendingMotion = none) ∧
      (moverBody.pendingMotion = none →
        bAfter.pose = moverBody.pose ∧
        bAfter.linearVelocity = moverBody.linearVelocity ∧
        bAfter.angularVelocity = moverBody.angularVelocity) :=
  kinematic_consumes_pending_motion 1 4 moverBody rfl rfl (by
    simp [Body.updateWakeCounter, Body.sleepEligible, Body.belowSleepThresholds,
      NxVec3.magnitudeSq, moverBody, sampleBody]
    norm_num)

/-- C5: a body transitions Awake → Sleeping in a step only when every body
of its connected group is below both sleep thresholds with an expired wake
counter; in particular, in a two-body group where one body exceeds its
thresholds, the other body stays awake through the step. -/
theorem awake_to_sleeping_groupwide :
    (∀ (dt maxCounter : ℚ) (g : List Body) (i : ℕ) (b bAfter : Body),
      g[i]? = some b →
      (stepGroup dt maxCounter g)[i]? = some bAfter →
      b.sleepState = SleepState.awake →
      bAfter.sleepState = SleepState.sleeping →
      ∀ c ∈ g, c.belowSleepThresholds = true ∧
        (c.updateWakeCounter dt maxCounter).wakeCounter ≤ 0) ∧
    (∀ (dt maxCounter : ℚ) (b1 b2 bAfter : Body),
      b1.sleepState = SleepState.awake →
      b2.belowSleepThresholds = false →
      (stepGroup dt maxCounter [b1, b2])[0]? = some bAfter →
      bAfter.sleepState = SleepState.awake) := by
  constructor
  · intro dt maxCounter g i b bAfter hb hafter hawake hsleep
    by_cases hall : (g.map (Body.updateWakeCounter dt maxCounter)).all Body.sleepEligible = true
    · intro c hc
      have hel : (c.updateWakeCounter dt maxCounter).sleepEligible = true := by
        rw [List.all_eq_true] at hall
        exact hall _ (List.mem_map_of_mem _ hc)
      have huc := updateWakeCounter_fields dt maxCounter c
      unfold Body.sleepEligible at hel
      simp at hel
      exact ⟨huc.2.2.2.2.2.2 ▸ hel.1, hel.2⟩
    · exfalso
      rw [stepGroup_getElem_false dt maxCounter g i
        (Bool.not_eq_true _ ▸ eq_false_of_ne_true hall), hb] at hafter
      have hba : bAfter = Body.integrateIfAwake dt (b.updateWakeCounter dt maxCounter) := by
        simpa using hafter.symm
      have hu := updateWakeCounter_fields dt maxCounter b
      have hstate : bAfter.sleepState = SleepState.awake := by
        rw [hba, integrateIfAwake_sleepState, hu.2.2.2.2.1, hawake]
      rw [hstate] at hsleep
      exact SleepState.noConfusion hsleep
  · intro dt maxCounter b1 b2 bAfter hawake hthresh hafter
    have hu1 := updateWakeCounter_fields dt maxCounter b1
    have hu2 := updateWakeCounter_fields dt maxCounter b2
    have hall : ([b1, b2].map (Body.updateWakeCounter dt maxCounter)).all
        Body.sleepEligible = false := by
      have hel : (b2.updateWakeCounter dt maxCounter).sleepEligible = false := by
        unfold Body.sleepEligible
        simp [hu2.2.2.2.2.2.2, hthresh]
      simp [List.all_eq_true]
      intro _
      exact hel
    rw [stepGroup_getElem_false dt maxCounter [b1, b2] 0 hall] at hafter
    have hba : bAfter = Body.integrateIfAwake dt (b1.updateWakeCounter dt maxCounter) := by
      simpa using hafter.symm
    rw [hba, integrateIfAwake_sleepState, hu1.2.2.2.2.1, hawake]

/-- An awake body that is quiescent (zero velocities, thresholds 1) with an
exhausted wake counter. -/
def quietBody : Body :=
  { sampleBody with
    linearVelocity := NxVec3.zero
    sleepLinearVelocity := 1
    sleepAngularVelocity := 1
    wakeCounter := 0 }

/-- The quiescent body after the step that puts it to sleep. -/
def quietAfter : Body :=
  { quietBody with wakeCounter := -1, sleepState := SleepState.sleeping }

/-- Witness for C5: the single-member group of the quiescent body does
transition, so every member was below thresholds with an expired counter. -/
theorem awake_to_sleeping_groupwide_witness :
    ∀ c ∈ [quietBody], c.belowSleepThresholds = true ∧
      (c.updateWakeCounter 1 4).wakeCounter ≤ 0 :=
  awake_to_sleeping_groupwide.1 1 4 [quietBody] 0 quietBody quietAfter rfl
    (by
      norm_num [stepGroup, Body.updateWakeCounter, Body.belowSleepThresholds,
        NxVec3.magnitudeSq, NxVec3.zero, Body.sleepEligible, Body.commitSleep,
        Body.integrateIfAwake, quietBody, quietAfter, sampleBody])
    rfl rfl

/-- C6: a body observed Sleeping immediately after a step has exactly the
pose and velocities it had when the step began: the step never changed
them. -/
theorem sleeping_after_step_unchanged (dt maxCounter : ℚ) (g : List Body) (i : ℕ)
    (b bAfter : Body)
    (hb : g[i]? = some b)
    (hafter : (stepGroup dt maxCounter g)[i]? = some bAfter)
    (hsleep : bAfter.isSleeping = true) :
    bAfter.pose = b.pose ∧
    bAfter.linearVelocity = b.linearVelocity ∧
    bAfter.angularVelocity = b.angularVelocity := by
  have hu := updateWakeCounter_fields dt maxCounter b
  by_cases hall : (g.map (Body.updateWakeCounter dt maxCounter)).all Body.sleepEligible = true
  · rw [stepGroup_getElem_true dt maxCounter g i hall, hb] at hafter
    have hc := commitSleep_fields (b.updateWakeCounter dt maxCounter)
    have hba : bAfter = (b.updateWakeCounter dt maxCounter).commitSleep := by
      have h2 := integrateIfAwake_of_sleeping dt
        ((b.updateWakeCounter dt maxCounter).commitSleep) hc.2.2.2.2.2
      simpa [h2] using hafter.symm
    rw [hba]
    exact ⟨hc.2.1.trans hu.2.1, hc.2.2.1.trans hu.2.2.1, hc.2.2.2.1.trans hu.2.2.2.1⟩
  · rw [stepGroup_getElem_false dt maxCounter g i
      (Bool.not_eq_true _ ▸ eq_false_of_ne_true hall), hb] at hafter
    have hba : bAfter = Body.integrateIfAwake dt (b.updateWakeCounter dt maxCounter) := by
      simpa using hafter.symm
    cases hst : b.sleepState
    · exfalso
      have h1 : bAfter.sleepState = SleepState.awake := by
        rw [hba, integrateIfAwake_sleepState, hu.2.2.2.2.1, hst]
      unfold Body.isSleeping at hsleep
      simp [h1] at hsleep
    · have hsl : (b.updateWakeCounter dt maxCounter).sleepState = SleepState.sleeping := by
        rw [hu.2.2.2.2.1, hst]
      rw [hba, integrateIfAwake_of_sleeping dt _ hsl]
      exact ⟨hu.2.1, hu.2.2.1, hu.2.2.2.1⟩

/-- A body that is already sleeping when the step begins. -/
def dormantBody : Body :=
  { quietBody with sleepState := SleepState.sleeping }

/-- The sleeping body after one further step: only its wake counter moved. -/
def dormantAfter : Body :=
  { dormantBody with wakeCounter := -1 }

/-- Witness for C6: the dormant body is still sleeping after a step, and its
pose and velocities are exactly the pre-step ones. -/
theorem sleeping_after_step_unchanged_witness :
    dormantAfter.pose = dormantBody.pose ∧
    dormantAfter.linearVelocity = dormantBody.linearVelocity ∧
    dormantAfter.angularVelocity = dormantBody.angularVelocity :=
  sleeping_after_step_unchanged 1 4 [dormantBody] 0 dormantBody dormantAfter rfl
    (by
      norm_num [stepGroup, Body.updateWakeCounter, Body.belowSleepThresholds,
        NxVec3.magnitudeSq, NxVec3.zero, Body.sleepEligible, Body.commitSleep,
        Body.integrateIfAwake, dormantBody, dormantAfter, quietBody, sampleBody])
    (by decide)

/-- C3: the mass-properties computation fails with DegenerateGeometry exactly
when the total accumulated volume is zero or some principal inertia value
would be non-positive; on failure `updateMassFromShapes` leaves the body
(and so its mass, center of mass and inertia) unchanged, and on success
every principal inertia value is strictly positive — never zero. -/
theorem updateMassFromShapes_degenerate_guard (b : Body) (density totalMass : ℚ) :
    ((computeFromShapes b.shapeMasses density totalMass =
        Except.error NxErrorCode.degenerateGeometry) ↔
      (totalVolume b.shapeMasses = 0 ∨
        (derivedInertia b.shapeMasses density totalMass).x ≤ 0 ∨
        (derivedInertia b.shapeMasses density totalMass).y ≤ 0 ∨
        (derivedInertia b.shapeMasses density totalMass).z ≤ 0)) ∧
    (computeFromShapes b.shapeMasses density totalMass =
        Except.error NxErrorCode.degenerateGeometry →
      b.updateMassFromShapes density totalMass = b) ∧
    (∀ m com inertia,
      computeFromShapes b.shapeMasses density totalMass = Except.ok (m, com, inertia) →
      0 < inertia.x ∧ 0 < inertia.y ∧ 0 < inertia.z) := by
  refine ⟨?_, ?_, ?_⟩
  · unfold computeFromShapes
    dsimp only
    split_ifs with h1 h2 <;> simp_all
  · intro herr
    unfold Body.updateMassFromShapes
    rw [herr]
  · intro m com inertia hok
    unfold computeFromShapes at hok
    dsimp only at hok
    split_ifs at hok with h1 h2
    simp at hok
    push_neg at h2
    obtain ⟨-, -, hi⟩ := hok
    rw [← hi]
    exact ⟨h2.1, h2.2.1, h2.2.2⟩

/-- Witness for C3: with no shapes the computation degenerates and the
sample body is left unchanged. -/
theorem updateMassFromShapes_degenerate_guard_witness :
    sampleBody.updateMassFromShapes 1 0 = sampleBody :=
  (updateMassFromShapes_degenerate_guard sampleBody 1 0).2.1 rfl
